import Mathlib

/-!
Shallow embedding of `path_callback.go` from the `vault-plugin-auth-oidc`
repository: the OIDC callback orchestrator (`pathCallback`) and its
anti-forgery nonce check (`verifyNonce`), together with the data model they
operate on.

External collaborators (the config store, the OIDC provider library, the
claims mapper, the nonce state cache) are modelled at their interface
boundary as fields of an `Env` record, exactly as the Go code consumes
them.  Go's `interface{}` values are modelled by `GoValue`; a failed
unchecked type assertion is modelled by the `Outcome.panic` constructor.
Network interactions are recorded in an explicit `Event` trace so that
ordering and absence-of-call properties can be stated.
-/

/-- A Go `interface{}` value, as stored in `req.Data`: either a string or
some non-string value. -/
inductive GoValue
  | str (s : String)
  | other
  deriving DecidableEq, Repr

/-- Result of running Go code that may panic (a failed unchecked type
assertion such as `x.(string)` on a nil or non-string value). -/
inductive Outcome (α : Type)
  | ok (a : α)
  | panic
  deriving Repr

instance {α : Type} [DecidableEq α] : DecidableEq (Outcome α) := fun a b => by
  cases a <;> cases b
  case ok.ok x y =>
    exact if h : x = y then isTrue (by rw [h]) else isFalse (by intro hc; cases hc; exact h rfl)
  case ok.panic x => exact isFalse (by intro hc; cases hc)
  case panic.ok y => exact isFalse (by intro hc; cases hc)
  case panic.panic => exact isTrue rfl

/-- Externally observable interactions of one callback invocation, in
program order: provider discovery, code-for-token exchange, ID-token
verification, nonce state-store lookup, user-info fetch. -/
inductive Event
  | discoverCall
  | exchangeCall
  | verifyCall
  | stateGet
  | userInfoCall
  deriving DecidableEq, Repr

/-- The OIDC configuration (`oidcConfig` in Go): the fields `pathCallback`
and `verifyNonce` read are `ClientID`, `TTL` and `MaxTTL`. -/
structure OidcConfig where
  clientID : String
  ttl : Nat
  maxTTL : Nat
  deriving DecidableEq, Repr

/-- The claims-mapping configuration.  Its contents are opaque to
`path_callback.go`; it is only handed to `parseUserInfo`. -/
structure ClaimsConfig where
  rules : List (String × String)
  deriving DecidableEq, Repr

/-- An `oauth2.Token`.  The callback reads its access token (implicitly,
via the static token source handed to the user-info fetch) and the
`id_token` extra field; `token.Extra("id_token")` yields `none` when the
field is absent. -/
structure OauthToken where
  accessToken : String
  extraIdToken : Option GoValue
  deriving DecidableEq, Repr

/-- A verified `oidc.IDToken`; the callback reads its `Nonce` claim. -/
structure IDToken where
  nonce : String
  deriving DecidableEq, Repr

/-- Raw user-info claims returned by the provider's user-info endpoint. -/
structure UserInfo where
  claims : List (String × GoValue)
  deriving DecidableEq, Repr

/-- The internal user record produced by the claims mapper
(`claimsConfig.parseUserInfo`). -/
structure UserData where
  username : String
  displayName : String
  policies : List String
  metadata : List (String × String)
  groups : List String
  deriving DecidableEq, Repr

/-- A `logical.Alias`: a named identity alias. -/
structure GoAlias where
  name : String
  deriving DecidableEq, Repr

/-- `logical.LeaseOptions`: lease TTL, maximum TTL and renewability of the
issued grant. -/
structure LeaseOptions where
  ttl : Nat
  maxTTL : Nat
  renewable : Bool
  deriving DecidableEq, Repr

/-- `logical.Auth`: the authorization grant assembled on success. -/
structure Auth where
  displayName : String
  policies : List String
  metadata : List (String × String)
  aliasEntry : GoAlias
  leaseOptions : LeaseOptions
  groupAliases : List GoAlias
  deriving DecidableEq, Repr

/-- A `logical.Response`: either an error response built by
`logical.ErrorResponse(msg)` or a response carrying an `Auth` grant. -/
inductive Response
  | errorResponse (msg : String)
  | auth (a : Auth)
  deriving DecidableEq, Repr

/-- The pair returned by the Go handler: `(*logical.Response, error)`.
`resp = none` models a nil response pointer; `err = none` models a nil
error. -/
structure CallbackResult where
  resp : Option Response
  err : Option String
  deriving DecidableEq, Repr

/-- The incoming connection; the callback reads its remote network
address (`req.Connection.RemoteAddr`). -/
structure Connection where
  remoteAddr : String
  deriving DecidableEq, Repr

/-- The `logical.Request`: the request data map (`req.Data`) and the
connection. -/
structure Request where
  data : List (String × GoValue)
  connection : Connection
  deriving DecidableEq, Repr

/-- An OIDC provider handle.  `path_callback.go` uses it through two
library operations: `provider.Verifier(&oidc.Config{ClientID}).Verify`
(given the client identifier and the raw ID token) and
`provider.UserInfo` (given the exchanged OAuth2 token). -/
structure Provider where
  verify : String → String → Except String IDToken
  userInfo : OauthToken → Except String UserInfo

/-- The Nonce State Store's current view: the unexpired entries, keyed by
the remote address that initiated login. -/
def Store := List (String × String)

/-- Modelled from the spec: the Nonce State Store `get` (the cache lives
in backend code outside `path_callback.go`).  Per §4.1 it returns the
current value for the key if present and not expired and reports
not-found otherwise; per §5 a lookup does not delete the entry — single
use is enforced only by the five-minute expiry window (entries already
expired are absent from `Store`). -/
def storeGet (s : Store) (k : String) : Option String :=
  List.lookup k s

/-- The environment of external collaborators the callback drives:
the config store reads (`b.config`, `b.claimsConfig`), provider
construction (`b.getProvider`), the OAuth2 code exchange
(`config.config2OauthConfig(provider).Exchange`), and the claims mapper
(`claimsConfig.parseUserInfo`) — all defined outside `path_callback.go`
and consumed here exactly at their call boundary. -/
structure Env where
  config : Except String (Option OidcConfig)
  claimsConfig : Except String (Option ClaimsConfig)
  getProvider : OidcConfig → Except String Provider
  exchange : OidcConfig → Provider → String → Except String OauthToken
  parseUserInfo : ClaimsConfig → UserInfo → Except String UserData

/-- `verifyNonce` from `path_callback.go`: verifies the ID token's
signature via the nonce-enabled verifier, then looks up the connection
state nonce and compares it to the verified token's nonce claim.
Returns `some msg` for a verification error, `none` for success; the
unchecked `token.Extra("id_token").(string)` assertion panics when the
field is absent or not a string.  The event trace records the
verification call and the state-store lookup; the store itself is
returned unchanged (the Go code only calls `Get`). -/
def verifyNonce (config : OidcConfig) (store : Store) (req : Request)
    (provider : Provider) (token : OauthToken) :
    Outcome (Option String) × List Event × Store :=
  match token.extraIdToken with
  | some (GoValue.str rawIDToken) =>
    match provider.verify config.clientID rawIDToken with
    | Except.error e =>
      (Outcome.ok (some ("Failed to verify ID Token: " ++ e)),
       [Event.verifyCall], store)
    | Except.ok idToken =>
      match storeGet store req.connection.remoteAddr with
      | none =>
        (Outcome.ok (some "Could not find connection state, this request may be forged or took over 5 minutes"),
         [Event.verifyCall, Event.stateGet], store)
      | some state =>
        if state ≠ idToken.nonce then
          (Outcome.ok (some "state nonce not matching, this request may be forged"),
           [Event.verifyCall, Event.stateGet], store)
        else
          (Outcome.ok none, [Event.verifyCall, Event.stateGet], store)
  | _ => (Outcome.panic, [], store)

/-- `pathCallback` from `path_callback.go`: load the two configurations,
create the provider, exchange the authorization code (an unchecked
`req.Data["code"].(string)` assertion), verify the nonce, fetch user
info, map claims, and assemble the grant.  Each `errwrap.Wrapf` is
modelled by prefixing the wrapped message. -/
def pathCallback (env : Env) (store : Store) (req : Request) :
    Outcome CallbackResult × List Event × Store :=
  match env.config with
  | Except.error err => (Outcome.ok ⟨none, some err⟩, [], store)
  | Except.ok none =>
    (Outcome.ok ⟨some (Response.errorResponse "could not load OIDC configuration"), none⟩, [], store)
  | Except.ok (some config) =>
    match env.claimsConfig with
    | Except.error err => (Outcome.ok ⟨none, some err⟩, [], store)
    | Except.ok none =>
      (Outcome.ok ⟨some (Response.errorResponse "could not load OIDC Mapping configuration"), none⟩, [], store)
    | Except.ok (some claimsConfig) =>
      match env.getProvider config with
      | Except.error err =>
        (Outcome.ok ⟨none, some ("error getting provider for login operation: " ++ err)⟩,
         [Event.discoverCall], store)
      | Except.ok provider =>
        match List.lookup "code" req.data with
        | some (GoValue.str code) =>
          match env.exchange config provider code with
          | Except.error err =>
            (Outcome.ok ⟨none, some ("Failed to exchange token: " ++ err)⟩,
             [Event.discoverCall, Event.exchangeCall], store)
          | Except.ok oauth2Token =>
            match verifyNonce config store req provider oauth2Token with
            | (Outcome.panic, tr, store') =>
              (Outcome.panic, [Event.discoverCall, Event.exchangeCall] ++ tr, store')
            | (Outcome.ok (some err), tr, store') =>
              (Outcome.ok ⟨none, some ("Failed to verify nonce: " ++ err)⟩,
               [Event.discoverCall, Event.exchangeCall] ++ tr, store')
            | (Outcome.ok none, tr, store') =>
              match provider.userInfo oauth2Token with
              | Except.error err =>
                (Outcome.ok ⟨none, some ("Failed to exchange token: " ++ err)⟩,
                 [Event.discoverCall, Event.exchangeCall] ++ tr ++ [Event.userInfoCall], store')
              | Except.ok userInfo =>
                match env.parseUserInfo claimsConfig userInfo with
                | Except.error err =>
                  (Outcome.ok ⟨none, some ("Failed to map user claims: " ++ err)⟩,
                   [Event.discoverCall, Event.exchangeCall] ++ tr ++ [Event.userInfoCall], store')
                | Except.ok userData =>
                  (Outcome.ok
                    ⟨some (Response.auth
                      { displayName := userData.displayName
                        policies := userData.policies
                        metadata := userData.metadata
                        aliasEntry := { name := userData.username }
                        leaseOptions :=
                          { ttl := config.ttl
                            maxTTL := config.maxTTL
                            renewable := true }
                        groupAliases := userData.groups.map (fun grp => { name := grp }) }),
                     none⟩,
                   [Event.discoverCall, Event.exchangeCall] ++ tr ++ [Event.userInfoCall], store')
        | _ => (Outcome.panic, [Event.discoverCall], store)

/-! ### Concrete fixtures

A baseline environment in which every external collaborator behaves, plus
variations that make a single step fail; used as witnesses and
counterexamples for the theorems below. -/

/-- A concrete OIDC configuration. -/
def goodConfig : OidcConfig := { clientID := "cid", ttl := 60, maxTTL := 120 }

/-- A concrete claims-mapping configuration. -/
def goodClaims : ClaimsConfig := { rules := [("username", "sub")] }

/-- A provider that verifies the raw ID tokens `"rawGood"` and `"rawAlt"`
(both carrying nonce `"abc123"`), rejects everything else, and serves
user info. -/
def goodProvider : Provider :=
  { verify := fun _ raw =>
      if raw = "rawGood" then Except.ok { nonce := "abc123" }
      else if raw = "rawAlt" then Except.ok { nonce := "abc123" }
      else Except.error "bad signature"
    userInfo := fun _ => Except.ok { claims := [("sub", GoValue.str "alice")] } }

/-- An exchanged token whose `id_token` extra verifies. -/
def goodToken : OauthToken := { accessToken := "at1", extraIdToken := some (GoValue.str "rawGood") }

/-- A different exchanged token whose `id_token` extra also verifies to
the same nonce. -/
def altToken : OauthToken := { accessToken := "at2", extraIdToken := some (GoValue.str "rawAlt") }

/-- A token whose `id_token` extra fails signature verification. -/
def badToken : OauthToken := { accessToken := "at3", extraIdToken := some (GoValue.str "rawBad") }

/-- A mapped user record with an unsorted, duplicate-containing group
list. -/
def goodUserData : UserData :=
  { username := "alice", displayName := "Alice", policies := ["default"],
    metadata := [("team", "eng")], groups := ["g2", "g1", "g2"] }

/-- The baseline environment: both configurations present, provider
reachable, exchange of `"goodcode"` succeeds, claims mapping succeeds. -/
def goodEnv : Env :=
  { config := Except.ok (some goodConfig)
    claimsConfig := Except.ok (some goodClaims)
    getProvider := fun _ => Except.ok goodProvider
    exchange := fun _ _ code =>
      if code = "goodcode" then Except.ok goodToken else Except.error "code rejected"
    parseUserInfo := fun _ _ => Except.ok goodUserData }

/-- Baseline environment, but the exchange returns a token failing
ID-token verification. -/
def badTokenEnv : Env :=
  { goodEnv with exchange := fun _ _ code =>
      if code = "goodcode" then Except.ok badToken else Except.error "code rejected" }

/-- Baseline environment, but the exchange returns the second verifying
token. -/
def altTokenEnv : Env :=
  { goodEnv with exchange := fun _ _ code =>
      if code = "goodcode" then Except.ok altToken else Except.error "code rejected" }

/-- Baseline environment with the OIDC configuration absent. -/
def noCfgEnv : Env := { goodEnv with config := Except.ok none }

/-- Baseline environment with the claims-mapping configuration absent. -/
def noClaimsEnv : Env := { goodEnv with claimsConfig := Except.ok none }

/-- Baseline environment in which provider construction fails. -/
def provErrEnv : Env := { goodEnv with getProvider := fun _ => Except.error "boom" }

/-- Baseline environment in which the code exchange fails. -/
def exchErrEnv : Env := { goodEnv with exchange := fun _ _ _ => Except.error "exchange refused" }

/-- The baseline provider with a failing user-info endpoint. -/
def uiErrProvider : Provider :=
  { goodProvider with userInfo := fun _ => Except.error "userinfo unavailable" }

/-- Baseline environment whose provider fails the user-info fetch. -/
def uiErrEnv : Env := { goodEnv with getProvider := fun _ => Except.ok uiErrProvider }

/-- Baseline environment in which claims mapping fails. -/
def mapErrEnv : Env :=
  { goodEnv with parseUserInfo := fun _ _ => Except.error "username claim missing" }

/-- The legitimate callback request: a string `code` field, from the
remote address that initiated login. -/
def goodReq : Request :=
  { data := [("code", GoValue.str "goodcode")], connection := { remoteAddr := "1.2.3.4" } }

/-- A callback request whose data map has no `code` key. -/
def reqNoCode : Request := { data := [], connection := { remoteAddr := "1.2.3.4" } }

/-- A callback request whose `code` field is not a string. -/
def reqNonStringCode : Request :=
  { data := [("code", GoValue.other)], connection := { remoteAddr := "1.2.3.4" } }

/-- The nonce store holding the entry written when login was initiated
from `1.2.3.4`. -/
def goodStore : Store := [("1.2.3.4", "abc123")]

/-- A nonce store with no unexpired entries. -/
def emptyStore : Store := []

/-- A nonce store whose entry for `1.2.3.4` differs from the token nonce
by one character. -/
def mismatchStore : Store := [("1.2.3.4", "abc124")]

/-! ### Helper lemmas -/

/-- C1: on every callback invocation, a token whose ID-token verification
fails makes the callback fail with the wrapped token-verification error,
and the nonce state-store lookup (hence the nonce comparison) never
executes: `Event.stateGet` is absent from the trace. -/
theorem callback_tokenInvalid_short_circuits
    (env : Env) (store : Store) (req : Request)
    (config : OidcConfig) (claimsCfg : ClaimsConfig) (provider : Provider)
    (code rawIDToken e : String) (token : OauthToken)
    (hc : env.config = Except.ok (some config))
    (hcc : env.claimsConfig = Except.ok (some claimsCfg))
    (hp : env.getProvider config = Except.ok provider)
    (hcode : List.lookup "code" req.data = some (GoValue.str code))
    (hx : env.exchange config provider code = Except.ok token)
    (hid : token.extraIdToken = some (GoValue.str rawIDToken))
    (hv : provider.verify config.clientID rawIDToken = Except.error e) :
    (pathCallback env store req).1 =
      Outcome.ok ⟨none, some ("Failed to verify nonce: " ++ ("Failed to verify ID Token: " ++ e))⟩
    ∧ Event.stateGet ∉ (pathCallback env store req).2.1 := by
  simp [pathCallback, verifyNonce, hc, hcc, hp, hcode, hx, hid, hv]

/-- Witness for C1 at a concrete environment whose exchanged token fails
signature verification. -/
theorem callback_tokenInvalid_short_circuits_witness :
    (pathCallback badTokenEnv goodStore goodReq).1 =
      Outcome.ok ⟨none, some ("Failed to verify nonce: " ++ ("Failed to verify ID Token: " ++ "bad signature"))⟩
    ∧ Event.stateGet ∉ (pathCallback badTokenEnv goodStore goodReq).2.1 :=
  callback_tokenInvalid_short_circuits badTokenEnv goodStore goodReq goodConfig goodClaims
    goodProvider "goodcode" "rawBad" "bad signature" badToken rfl rfl rfl rfl rfl rfl rfl

/-- Variant of `string_append_ne_of_data_ne` against a fully literal
right-hand side. -/
theorem string_append_ne_full (s1 a s2 : String) (n : Nat)
    (h1 : n < s1.length) (_h2 : n < s2.length)
    (hne : s1.data[n]? ≠ s2.data[n]?) : s1 ++ a ≠ s2 := by
  intro h
  apply hne
  have hd : (s1 ++ a).data = s2.data := congrArg String.data h
  rw [String.data_append] at hd
  have hg := congrArg (fun l => l[n]?) hd
  simp only at hg
  rwa [List.getElem?_append_left h1] at hg

/-- C2: for a callback whose ID token verifies, the callback fails with
the missing-state message exactly when the nonce store has no entry for
the request's remote address, fails with the mismatch message exactly
when the stored nonce differs from the verified token's nonce under
exact string equality, and the user-info fetch happens exactly when the
stored nonce equals the token's nonce. -/
theorem callback_forged_or_expired_iff
    (env : Env) (store : Store) (req : Request)
    (config : OidcConfig) (claimsCfg : ClaimsConfig) (provider : Provider)
    (code rawIDToken : String) (idToken : IDToken) (token : OauthToken)
    (hc : env.config = Except.ok (some config))
    (hcc : env.claimsConfig = Except.ok (some claimsCfg))
    (hp : env.getProvider config = Except.ok provider)
    (hcode : List.lookup "code" req.data = some (GoValue.str code))
    (hx : env.exchange config provider code = Except.ok token)
    (hid : token.extraIdToken = some (GoValue.str rawIDToken))
    (hv : provider.verify config.clientID rawIDToken = Except.ok idToken) :
    ((pathCallback env store req).1 =
        Outcome.ok ⟨none, some ("Failed to verify nonce: " ++
          "Could not find connection state, this request may be forged or took over 5 minutes")⟩
      ↔ storeGet store req.connection.remoteAddr = none)
    ∧ ((pathCallback env store req).1 =
        Outcome.ok ⟨none, some ("Failed to verify nonce: " ++
          "state nonce not matching, this request may be forged")⟩
      ↔ ∃ s, storeGet store req.connection.remoteAddr = some s ∧ s ≠ idToken.nonce)
    ∧ (Event.userInfoCall ∈ (pathCallback env store req).2.1
      ↔ storeGet store req.connection.remoteAddr = some idToken.nonce) := by
  rcases hs : storeGet store req.connection.remoteAddr with _ | s
  · refine ⟨?_, ?_, ?_⟩
    · simp [pathCallback, verifyNonce, hc, hcc, hp, hcode, hx, hid, hv, hs]
    · simp [pathCallback, verifyNonce, hc, hcc, hp, hcode, hx, hid, hv, hs]
    · simp [pathCallback, verifyNonce, hc, hcc, hp, hcode, hx, hid, hv, hs]
  · by_cases hsn : s = idToken.nonce
    · subst hsn
      rcases hu : provider.userInfo token with ue | ui
      · refine ⟨?_, ?_, ?_⟩
        · simp [pathCallback, verifyNonce, hc, hcc, hp, hcode, hx, hid, hv, hs, hu]
          exact string_append_ne_full "Failed to exchange token: " ue
            "Failed to verify nonce: Could not find connection state, this request may be forged or took over 5 minutes"
            10 (by decide) (by decide) (by decide)
        · simp [pathCallback, verifyNonce, hc, hcc, hp, hcode, hx, hid, hv, hs, hu]
          exact string_append_ne_full "Failed to exchange token: " ue
            "Failed to verify nonce: state nonce not matching, this request may be forged"
            10 (by decide) (by decide) (by decide)
        · simp [pathCallback, verifyNonce, hc, hcc, hp, hcode, hx, hid, hv, hs, hu]
      · rcases hm : env.parseUserInfo claimsCfg ui with pe | ud
        · refine ⟨?_, ?_, ?_⟩
          · simp [pathCallback, verifyNonce, hc, hcc, hp, hcode, hx, hid, hv, hs, hu, hm]
            exact string_append_ne_full "Failed to map user claims: " pe
              "Failed to verify nonce: Could not find connection state, this request may be forged or took over 5 minutes"
              10 (by decide) (by decide) (by decide)
          · simp [pathCallback, verifyNonce, hc, hcc, hp, hcode, hx, hid, hv, hs, hu, hm]
            exact string_append_ne_full "Failed to map user claims: " pe
              "Failed to verify nonce: state nonce not matching, this request may be forged"
              10 (by decide) (by decide) (by decide)
          · simp [pathCallback, verifyNonce, hc, hcc, hp, hcode, hx, hid, hv, hs, hu, hm]
        · refine ⟨?_, ?_, ?_⟩
          · simp [pathCallback, verifyNonce, hc, hcc, hp, hcode, hx, hid, hv, hs, hu, hm]
          · simp [pathCallback, verifyNonce, hc, hcc, hp, hcode, hx, hid, hv, hs, hu, hm]
          · simp [pathCallback, verifyNonce, hc, hcc, hp, hcode, hx, hid, hv, hs, hu, hm]
    · refine ⟨?_, ?_, ?_⟩
      · simp [pathCallback, verifyNonce, hc, hcc, hp, hcode, hx, hid, hv, hs, hsn]
      · simp only [pathCallback, verifyNonce, hc, hcc, hp, hcode, hx, hid, hv, hs, hsn]
        simp [hs, hsn]
      · simp [pathCallback, verifyNonce, hc, hcc, hp, hcode, hx, hid, hv, hs, hsn]

/-- Witness for C2: in the baseline environment the stored nonce matches
and the callback proceeds to the user-info fetch. -/
theorem callback_forged_or_expired_iff_witness :
    Event.userInfoCall ∈ (pathCallback goodEnv goodStore goodReq).2.1 :=
  (callback_forged_or_expired_iff goodEnv goodStore goodReq goodConfig goodClaims goodProvider
    "goodcode" "rawGood" { nonce := "abc123" } goodToken
    rfl rfl rfl rfl rfl rfl rfl).2.2.mpr rfl

/-- C3: the claim says a missing or non-string `code` yields a BadRequest
failure; the code instead evaluates the unchecked type assertion
`req.Data["code"].(string)`, so with both configurations present and the
provider reachable, a request without a `code` key — or with a
non-string one — makes the callback panic instead of returning an
error. -/
theorem callback_code_assertion_panics :
    (pathCallback goodEnv goodStore reqNoCode).1 = Outcome.panic
    ∧ (pathCallback goodEnv goodStore reqNonStringCode).1 = Outcome.panic := by
  exact ⟨rfl, rfl⟩

/-- C4: when the OIDC configuration is absent, or present while the
claims-mapping configuration is absent, the callback returns an error
response with a nil error and its trace is empty — no discovery,
exchange, token verification, state lookup or user-info fetch occurs. -/
theorem callback_config_missing_no_network_calls
    (env : Env) (store : Store) (req : Request)
    (h : env.config = Except.ok none ∨
         (∃ c, env.config = Except.ok (some c) ∧ env.claimsConfig = Except.ok none)) :
    (∃ m, (pathCallback env store req).1 =
        Outcome.ok ⟨some (Response.errorResponse m), none⟩)
    ∧ (pathCallback env store req).2.1 = [] := by
  rcases h with h | ⟨c, h1, h2⟩
  · exact ⟨⟨"could not load OIDC configuration", by simp [pathCallback, h]⟩, by simp [pathCallback, h]⟩
  · exact ⟨⟨"could not load OIDC Mapping configuration", by simp [pathCallback, h1, h2]⟩,
      by simp [pathCallback, h1, h2]⟩

/-- Witness for C4 at environments missing one configuration each. -/
theorem callback_config_missing_no_network_calls_witness :
    ((∃ m, (pathCallback noCfgEnv goodStore goodReq).1 =
        Outcome.ok ⟨some (Response.errorResponse m), none⟩)
      ∧ (pathCallback noCfgEnv goodStore goodReq).2.1 = [])
    ∧ ((∃ m, (pathCallback noClaimsEnv goodStore goodReq).1 =
        Outcome.ok ⟨some (Response.errorResponse m), none⟩)
      ∧ (pathCallback noClaimsEnv goodStore goodReq).2.1 = []) :=
  ⟨callback_config_missing_no_network_calls noCfgEnv goodStore goodReq (Or.inl rfl),
   callback_config_missing_no_network_calls noClaimsEnv goodStore goodReq
     (Or.inr ⟨goodConfig, rfl, rfl⟩)⟩

/-- C5: when both configurations are present, the exchanged token
verifies, the stored nonce equals the token's nonce, and the user-info
fetch and claims mapping succeed, the callback returns a grant whose
lease TTL and MaxTTL equal the configuration's values and whose
renewable flag is true. -/
theorem callback_success_grant_lease
    (env : Env) (store : Store) (req : Request)
    (config : OidcConfig) (claimsCfg : ClaimsConfig) (provider : Provider)
    (code rawIDToken : String) (idToken : IDToken) (token : OauthToken)
    (userInfo : UserInfo) (userData : UserData)
    (hc : env.config = Except.ok (some config))
    (hcc : env.claimsConfig = Except.ok (some claimsCfg))
    (hp : env.getProvider config = Except.ok provider)
    (hcode : List.lookup "code" req.data = some (GoValue.str code))
    (hx : env.exchange config provider code = Except.ok token)
    (hid : token.extraIdToken = some (GoValue.str rawIDToken))
    (hv : provider.verify config.clientID rawIDToken = Except.ok idToken)
    (hs : storeGet store req.connection.remoteAddr = some idToken.nonce)
    (hu : provider.userInfo token = Except.ok userInfo)
    (hm : env.parseUserInfo claimsCfg userInfo = Except.ok userData) :
    ∃ a, (pathCallback env store req).1 = Outcome.ok ⟨some (Response.auth a), none⟩
      ∧ a.leaseOptions.ttl = config.ttl
      ∧ a.leaseOptions.maxTTL = config.maxTTL
      ∧ a.leaseOptions.renewable = true := by
  refine ⟨{ displayName := userData.displayName
            policies := userData.policies
            metadata := userData.metadata
            aliasEntry := { name := userData.username }
            leaseOptions := { ttl := config.ttl, maxTTL := config.maxTTL, renewable := true }
            groupAliases := userData.groups.map (fun grp => { name := grp }) }, ?_, rfl, rfl, rfl⟩
  simp [pathCallback, verifyNonce, hc, hcc, hp, hcode, hx, hid, hv, hs, hu, hm]

/-- Witness for C5 in the baseline environment. -/
theorem callback_success_grant_lease_witness :
    ∃ a, (pathCallback goodEnv goodStore goodReq).1 = Outcome.ok ⟨some (Response.auth a), none⟩
      ∧ a.leaseOptions.ttl = goodConfig.ttl
      ∧ a.leaseOptions.maxTTL = goodConfig.maxTTL
      ∧ a.leaseOptions.renewable = true :=
  callback_success_grant_lease goodEnv goodStore goodReq goodConfig goodClaims goodProvider
    "goodcode" "rawGood" { nonce := "abc123" } goodToken
    { claims := [("sub", GoValue.str "alice")] } goodUserData
    rfl rfl rfl rfl rfl rfl rfl rfl rfl rfl

/-- Counterexample to C6: the three security-relevant failures surface
three pairwise-distinct error messages — the token-verification failure
even embeds the verifier's detail — so the requester can tell whether
the token signature, the missing state entry, or the nonce mismatch was
the point of failure, contradicting the claim that the surfaced
messages are identical in what they reveal. -/
theorem callback_failure_messages_differ :
    (pathCallback badTokenEnv goodStore goodReq).1 =
      Outcome.ok ⟨none, some "Failed to verify nonce: Failed to verify ID Token: bad signature"⟩
    ∧ (pathCallback goodEnv emptyStore goodReq).1 =
      Outcome.ok ⟨none, some "Failed to verify nonce: Could not find connection state, this request may be forged or took over 5 minutes"⟩
    ∧ (pathCallback goodEnv mismatchStore goodReq).1 =
      Outcome.ok ⟨none, some "Failed to verify nonce: state nonce not matching, this request may be forged"⟩
    ∧ "Failed to verify nonce: Failed to verify ID Token: bad signature" ≠
      "Failed to verify nonce: Could not find connection state, this request may be forged or took over 5 minutes"
    ∧ "Failed to verify nonce: Could not find connection state, this request may be forged or took over 5 minutes" ≠
      "Failed to verify nonce: state nonce not matching, this request may be forged" :=
  ⟨rfl, rfl, rfl, by decide, by decide⟩

/-- C6 as amended: the failure messages identify the failing check.
ID-token verification failure yields the wrapped verifier detail, a
missing state entry yields the could-not-find-connection-state message,
and a nonce mismatch yields the nonce-not-matching message — three
distinct, self-describing errors. -/
theorem callback_failure_messages_identify_step
    (env : Env) (store : Store) (req : Request)
    (config : OidcConfig) (claimsCfg : ClaimsConfig) (provider : Provider)
    (code rawIDToken : String) (token : OauthToken)
    (hc : env.config = Except.ok (some config))
    (hcc : env.claimsConfig = Except.ok (some claimsCfg))
    (hp : env.getProvider config = Except.ok provider)
    (hcode : List.lookup "code" req.data = some (GoValue.str code))
    (hx : env.exchange config provider code = Except.ok token)
    (hid : token.extraIdToken = some (GoValue.str rawIDToken)) :
    (∀ e, provider.verify config.clientID rawIDToken = Except.error e →
      (pathCallback env store req).1 =
        Outcome.ok ⟨none, some ("Failed to verify nonce: " ++ ("Failed to verify ID Token: " ++ e))⟩)
    ∧ (∀ idToken, provider.verify config.clientID rawIDToken = Except.ok idToken →
        storeGet store req.connection.remoteAddr = none →
        (pathCallback env store req).1 =
          Outcome.ok ⟨none, some ("Failed to verify nonce: " ++
            "Could not find connection state, this request may be forged or took over 5 minutes")⟩)
    ∧ (∀ idToken s, provider.verify config.clientID rawIDToken = Except.ok idToken →
        storeGet store req.connection.remoteAddr = some s → s ≠ idToken.nonce →
        (pathCallback env store req).1 =
          Outcome.ok ⟨none, some ("Failed to verify nonce: " ++
            "state nonce not matching, this request may be forged")⟩) := by
  refine ⟨?_, ?_, ?_⟩
  · intro e hv
    simp [pathCallback, verifyNonce, hc, hcc, hp, hcode, hx, hid, hv]
  · intro idToken hv hs
    simp [pathCallback, verifyNonce, hc, hcc, hp, hcode, hx, hid, hv, hs]
  · intro idToken s hv hs hsn
    simp [pathCallback, verifyNonce, hc, hcc, hp, hcode, hx, hid, hv, hs, hsn]

/-- Witness for the amended C6 at three concrete environments, one per
failure class. -/
theorem callback_failure_messages_identify_step_witness :
    (pathCallback badTokenEnv goodStore goodReq).1 =
      Outcome.ok ⟨none, some ("Failed to verify nonce: " ++ ("Failed to verify ID Token: " ++ "bad signature"))⟩
    ∧ (pathCallback goodEnv emptyStore goodReq).1 =
      Outcome.ok ⟨none, some ("Failed to verify nonce: " ++
        "Could not find connection state, this request may be forged or took over 5 minutes")⟩
    ∧ (pathCallback goodEnv mismatchStore goodReq).1 =
      Outcome.ok ⟨none, some ("Failed to verify nonce: " ++
        "state nonce not matching, this request may be forged")⟩ :=
  ⟨(callback_failure_messages_identify_step badTokenEnv goodStore goodReq goodConfig goodClaims
      goodProvider "goodcode" "rawBad" badToken rfl rfl rfl rfl rfl rfl).1 "bad signature" rfl,
   (callback_failure_messages_identify_step goodEnv emptyStore goodReq goodConfig goodClaims
      goodProvider "goodcode" "rawGood" goodToken rfl rfl rfl rfl rfl rfl).2.1
      { nonce := "abc123" } rfl rfl,
   (callback_failure_messages_identify_step goodEnv mismatchStore goodReq goodConfig goodClaims
      goodProvider "goodcode" "rawGood" goodToken rfl rfl rfl rfl rfl rfl).2.2
      { nonce := "abc123" } "abc124" rfl rfl (by decide)⟩

/-- The nonce-verification step never mutates the nonce store: the Go
code only calls `Get` on the state cache. -/
theorem verifyNonce_preserves_store (config : OidcConfig) (store : Store) (req : Request)
    (provider : Provider) (token : OauthToken) :
    (verifyNonce config store req provider token).2.2 = store := by
  simp only [verifyNonce]
  split
  · split
    · rfl
    · split
      · rfl
      · split <;> rfl
  · rfl

/-- Counterexample to C7: a consumed nonce entry remains presentable.
After a successful callback that looked the entry up, the store is
unchanged and still holds the entry, and a second callback carrying a
different exchanged token (a distinct access token and a distinct raw ID
token with the same nonce claim) succeeds against the same entry. -/
theorem nonce_entry_reusable_within_window :
    (∃ a, (pathCallback goodEnv goodStore goodReq).1 = Outcome.ok ⟨some (Response.auth a), none⟩)
    ∧ (pathCallback goodEnv goodStore goodReq).2.2 = goodStore
    ∧ storeGet (pathCallback goodEnv goodStore goodReq).2.2 "1.2.3.4" = some "abc123"
    ∧ (∃ a, (pathCallback altTokenEnv (pathCallback goodEnv goodStore goodReq).2.2 goodReq).1 =
        Outcome.ok ⟨some (Response.auth a), none⟩)
    ∧ altToken ≠ goodToken :=
  ⟨⟨_, rfl⟩, rfl, rfl, ⟨_, rfl⟩, by decide⟩

/-- C7 as amended: the callback never deletes or invalidates a Nonce
State Store entry — every invocation returns the store unchanged, so a
looked-up entry stays presentable to later callbacks until the
five-minute expiry window removes it. -/
theorem callback_preserves_store (env : Env) (store : Store) (req : Request) :
    (pathCallback env store req).2.2 = store := by
  rcases hc : env.config with e | (_ | config)
  · simp [pathCallback, hc]
  · simp [pathCallback, hc]
  · rcases hcc : env.claimsConfig with e | (_ | claimsCfg)
    · simp [pathCallback, hc, hcc]
    · simp [pathCallback, hc, hcc]
    · rcases hp : env.getProvider config with pe | provider
      · simp [pathCallback, hc, hcc, hp]
      · rcases hcode : List.lookup "code" req.data with _ | (s | _)
        · simp [pathCallback, hc, hcc, hp, hcode]
        · rcases hx : env.exchange config provider s with xe | token
          · simp [pathCallback, hc, hcc, hp, hcode, hx]
          · have hvn := verifyNonce_preserves_store config store req provider token
            rcases hveq : verifyNonce config store req provider token with ⟨o, tr, st⟩
            rw [hveq] at hvn
            have hst : st = store := hvn
            subst hst
            rcases o with a | _
            · rcases a with _ | msg
              · rcases hu : provider.userInfo token with ue | ui
                · simp [pathCallback, hc, hcc, hp, hcode, hx, hveq, hu]
                · rcases hm : env.parseUserInfo claimsCfg ui with pe2 | ud
                  · simp [pathCallback, hc, hcc, hp, hcode, hx, hveq, hu, hm]
                  · simp [pathCallback, hc, hcc, hp, hcode, hx, hveq, hu, hm]
              · simp [pathCallback, hc, hcc, hp, hcode, hx, hveq]
            · simp [pathCallback, hc, hcc, hp, hcode, hx, hveq]
        · simp [pathCallback, hc, hcc, hp, hcode]

/-- C8: on every successful callback the grant's group aliases are,
element for element and in the same order, the groups produced by the
claims mapper — each wrapped as an alias of that name, with no sorting,
deduplication or reordering. -/
theorem callback_group_aliases_order
    (env : Env) (store : Store) (req : Request)
    (config : OidcConfig) (claimsCfg : ClaimsConfig) (provider : Provider)
    (code rawIDToken : String) (idToken : IDToken) (token : OauthToken)
    (userInfo : UserInfo) (userData : UserData)
    (hc : env.config = Except.ok (some config))
    (hcc : env.claimsConfig = Except.ok (some claimsCfg))
    (hp : env.getProvider config = Except.ok provider)
    (hcode : List.lookup "code" req.data = some (GoValue.str code))
    (hx : env.exchange config provider code = Except.ok token)
    (hid : token.extraIdToken = some (GoValue.str rawIDToken))
    (hv : provider.verify config.clientID rawIDToken = Except.ok idToken)
    (hs : storeGet store req.connection.remoteAddr = some idToken.nonce)
    (hu : provider.userInfo token = Except.ok userInfo)
    (hm : env.parseUserInfo claimsCfg userInfo = Except.ok userData) :
    ∃ a, (pathCallback env store req).1 = Outcome.ok ⟨some (Response.auth a), none⟩
      ∧ a.groupAliases = userData.groups.map (fun grp => { name := grp })
      ∧ a.groupAliases.map GoAlias.name = userData.groups := by
  refine ⟨{ displayName := userData.displayName
            policies := userData.policies
            metadata := userData.metadata
            aliasEntry := { name := userData.username }
            leaseOptions := { ttl := config.ttl, maxTTL := config.maxTTL, renewable := true }
            groupAliases := userData.groups.map (fun grp => { name := grp }) }, ?_, rfl, ?_⟩
  · simp [pathCallback, verifyNonce, hc, hcc, hp, hcode, hx, hid, hv, hs, hu, hm]
  · have hcomp : (GoAlias.name ∘ fun grp => ({ name := grp } : GoAlias)) = id := rfl
    simp [List.map_map, hcomp]

/-- Witness for C8: the baseline user record's group list is unsorted
and contains a duplicate, and the grant preserves it verbatim. -/
theorem callback_group_aliases_order_witness :
    ∃ a, (pathCallback goodEnv goodStore goodReq).1 = Outcome.ok ⟨some (Response.auth a), none⟩
      ∧ a.groupAliases = goodUserData.groups.map (fun grp => { name := grp })
      ∧ a.groupAliases.map GoAlias.name = goodUserData.groups :=
  callback_group_aliases_order goodEnv goodStore goodReq goodConfig goodClaims goodProvider
    "goodcode" "rawGood" { nonce := "abc123" } goodToken
    { claims := [("sub", GoValue.str "alice")] } goodUserData
    rfl rfl rfl rfl rfl rfl rfl rfl rfl rfl

/-- C9: `verifyNonce` panics exactly when the exchanged token's
`id_token` extra field is absent or not a string — the unchecked type
assertion makes evaluation undefined instead of returning a TokenInvalid
error, so the function is total only under the precondition that the
exchange returned a string `id_token`. -/
theorem verifyNonce_panics_iff_idToken_not_string
    (config : OidcConfig) (store : Store) (req : Request)
    (provider : Provider) (token : OauthToken) :
    (verifyNonce config store req provider token).1 = Outcome.panic
      ↔ ∀ s, token.extraIdToken ≠ some (GoValue.str s) := by
  rcases hid : token.extraIdToken with _ | (s | _)
  · simp [verifyNonce, hid]
  · constructor
    · intro h
      exfalso
      rcases hv : provider.verify config.clientID s with e | idT
      · simp [verifyNonce, hid, hv] at h
      · rcases hs : storeGet store req.connection.remoteAddr with _ | st
        · simp [verifyNonce, hid, hv, hs] at h
        · by_cases hn : st = idT.nonce
          · simp [verifyNonce, hid, hv, hs, hn] at h
          · simp [verifyNonce, hid, hv, hs, hn] at h
    · intro h
      exact absurd rfl (h s)
  · simp [verifyNonce, hid]

/-- Witness for C9 at a token whose `id_token` extra is a non-string
value. -/
theorem verifyNonce_panics_iff_idToken_not_string_witness :
    (verifyNonce goodConfig goodStore goodReq goodProvider
      { accessToken := "at4", extraIdToken := some GoValue.other }).1 = Outcome.panic :=
  (verifyNonce_panics_iff_idToken_not_string goodConfig goodStore goodReq goodProvider
      { accessToken := "at4", extraIdToken := some GoValue.other }).mpr
    (fun s h => by simp at h)

/-- C10: the callback reports failures through two distinct channels: an
absent configuration (or claims-mapping configuration) yields a non-nil
error response paired with a nil error, while each failure after
configuration loading — provider creation, code exchange, nonce
verification, user-info fetch, claims mapping — yields a nil response
paired with a non-nil error wrapped with that step's message prefix. -/
theorem callback_failure_channels
    (env : Env) (store : Store) (req : Request) :
    ((env.config = Except.ok none ∨
        (∃ c, env.config = Except.ok (some c) ∧ env.claimsConfig = Except.ok none)) →
      ∃ m, (pathCallback env store req).1 =
        Outcome.ok ⟨some (Response.errorResponse m), none⟩)
    ∧ (∀ config claimsCfg,
        env.config = Except.ok (some config) →
        env.claimsConfig = Except.ok (some claimsCfg) →
        (∀ pe, env.getProvider config = Except.error pe →
          (pathCallback env store req).1 =
            Outcome.ok ⟨none, some ("error getting provider for login operation: " ++ pe)⟩)
        ∧ (∀ provider code xe,
            env.getProvider config = Except.ok provider →
            List.lookup "code" req.data = some (GoValue.str code) →
            env.exchange config provider code = Except.error xe →
            (pathCallback env store req).1 =
              Outcome.ok ⟨none, some ("Failed to exchange token: " ++ xe)⟩)
        ∧ (∀ provider code token msg tr st,
            env.getProvider config = Except.ok provider →
            List.lookup "code" req.data = some (GoValue.str code) →
            env.exchange config provider code = Except.ok token →
            verifyNonce config store req provider token = (Outcome.ok (some msg), tr, st) →
            (pathCallback env store req).1 =
              Outcome.ok ⟨none, some ("Failed to verify nonce: " ++ msg)⟩)
        ∧ (∀ provider code token tr st ue,
            env.getProvider config = Except.ok provider →
            List.lookup "code" req.data = some (GoValue.str code) →
            env.exchange config provider code = Except.ok token →
            verifyNonce config store req provider token = (Outcome.ok none, tr, st) →
            provider.userInfo token = Except.error ue →
            (pathCallback env store req).1 =
              Outcome.ok ⟨none, some ("Failed to exchange token: " ++ ue)⟩)
        ∧ (∀ provider code token tr st ui pe2,
            env.getProvider config = Except.ok provider →
            List.lookup "code" req.data = some (GoValue.str code) →
            env.exchange config provider code = Except.ok token →
            verifyNonce config store req provider token = (Outcome.ok none, tr, st) →
            provider.userInfo token = Except.ok ui →
            env.parseUserInfo claimsCfg ui = Except.error pe2 →
            (pathCallback env store req).1 =
              Outcome.ok ⟨none, some ("Failed to map user claims: " ++ pe2)⟩)) := by
  constructor
  · rintro (hc | ⟨c, hc, hcc⟩)
    · exact ⟨"could not load OIDC configuration", by simp [pathCallback, hc]⟩
    · exact ⟨"could not load OIDC Mapping configuration", by simp [pathCallback, hc, hcc]⟩
  · intro config claimsCfg hc hcc
    refine ⟨?_, ?_, ?_, ?_, ?_⟩
    · intro pe hp
      simp [pathCallback, hc, hcc, hp]
    · intro provider code xe hp hcode hx
      simp [pathCallback, hc, hcc, hp, hcode, hx]
    · intro provider code token msg tr st hp hcode hx hveq
      simp [pathCallback, hc, hcc, hp, hcode, hx, hveq]
    · intro provider code token tr st ue hp hcode hx hveq hu
      simp [pathCallback, hc, hcc, hp, hcode, hx, hveq, hu]
    · intro provider code token tr st ui pe2 hp hcode hx hveq hu hm
      simp [pathCallback, hc, hcc, hp, hcode, hx, hveq, hu, hm]

/-- Witness for C10 at six concrete environments, one per channel and
failing step: absent configuration, failing provider creation, failing
exchange, failing nonce verification, failing user-info fetch, and
failing claims mapping. -/
theorem callback_failure_channels_witness :
    (∃ m, (pathCallback noCfgEnv goodStore goodReq).1 =
      Outcome.ok ⟨some (Response.errorResponse m), none⟩)
    ∧ (pathCallback provErrEnv goodStore goodReq).1 =
      Outcome.ok ⟨none, some ("error getting provider for login operation: " ++ "boom")⟩
    ∧ (pathCallback exchErrEnv goodStore goodReq).1 =
      Outcome.ok ⟨none, some ("Failed to exchange token: " ++ "exchange refused")⟩
    ∧ (pathCallback goodEnv emptyStore goodReq).1 =
      Outcome.ok ⟨none, some ("Failed to verify nonce: " ++
        "Could not find connection state, this request may be forged or took over 5 minutes")⟩
    ∧ (pathCallback uiErrEnv goodStore goodReq).1 =
      Outcome.ok ⟨none, some ("Failed to exchange token: " ++ "userinfo unavailable")⟩
    ∧ (pathCallback mapErrEnv goodStore goodReq).1 =
      Outcome.ok ⟨none, some ("Failed to map user claims: " ++ "username claim missing")⟩ :=
  ⟨(callback_failure_channels noCfgEnv goodStore goodReq).1 (Or.inl rfl),
   ((callback_failure_channels provErrEnv goodStore goodReq).2 goodConfig goodClaims
      rfl rfl).1 "boom" rfl,
   ((callback_failure_channels exchErrEnv goodStore goodReq).2 goodConfig goodClaims
      rfl rfl).2.1 goodProvider "goodcode" "exchange refused" rfl rfl rfl,
   ((callback_failure_channels goodEnv emptyStore goodReq).2 goodConfig goodClaims
      rfl rfl).2.2.1 goodProvider "goodcode" goodToken
      "Could not find connection state, this request may be forged or took over 5 minutes"
      [Event.verifyCall, Event.stateGet] emptyStore rfl rfl rfl rfl,
   ((callback_failure_channels uiErrEnv goodStore goodReq).2 goodConfig goodClaims
      rfl rfl).2.2.2.1 uiErrProvider "goodcode" goodToken
      [Event.verifyCall, Event.stateGet] goodStore "userinfo unavailable"
      rfl rfl rfl rfl rfl,
   ((callback_failure_channels mapErrEnv goodStore goodReq).2 goodConfig goodClaims
      rfl rfl).2.2.2.2 goodProvider "goodcode" goodToken
      [Event.verifyCall, Event.stateGet] goodStore
      { claims := [("sub", GoValue.str "alice")] } "username claim missing"
      rfl rfl rfl rfl rfl rfl⟩
